import Mathlib

/-!
# Verification of the document-intelligence backend (`backend/app.py`)

A shallow embedding of the pure logic of the backend:

* the question/answer parser inside `generate_questions`;
* the fixed-offset chunker in `process_document`;
* the per-chunk processing loop with its 15-second deadline and
  catch-and-continue policy, with the outcomes of the external LLM gateway
  (`query_openrouter`) and of the wall-clock alarm supplied as oracles;
* the aggregation and response construction of `process_document`;
* batched PDF page extraction in `extract_text_from_pdf`, with per-page
  outcomes supplied as data;
* the subscription-token verification `verify_whop_token` and the
  `whop_required` guard, with the subscription API's answer supplied as data.

Python strings are modelled as `String` (or `List Char` where index slicing
matters); `str.strip()` is modelled over the common ASCII whitespace
characters of Python's default strip set.
-/

namespace Backend

/-- Python's default `str.strip()` whitespace set (ASCII part). -/
def isWs (c : Char) : Bool :=
  c = ' ' || c = '\t' || c = '\n' || c = '\r' || c = '\x0b' || c = '\x0c'

/-- `l.strip()` on a list of characters: drop whitespace from both ends. -/
def pyStrip (l : List Char) : List Char :=
  ((l.dropWhile isWs).reverse.dropWhile isWs).reverse

/-- `s.strip()` on a `String`. -/
def pyStripS (s : String) : String :=
  ⟨pyStrip s.data⟩

/-- A question/answer pair, as built by `generate_questions`:
`{"question": ..., "answer": ...}`. -/
structure QA where
  question : String
  answer : String
deriving DecidableEq, Repr

/-- `s.split('\n')` on a list of characters, accumulator version:
splits at every newline, keeping empty segments (so `"".split('\n') = [""]`). -/
def splitNlAux : List Char → List Char → List (List Char)
  | [], acc => [acc.reverse]
  | c :: rest, acc =>
    if c = '\n' then acc.reverse :: splitNlAux rest []
    else splitNlAux rest (c :: acc)

/-- `s.split('\n')`: the reply's lines. -/
def splitNl (l : List Char) : List (List Char) := splitNlAux l []

/-- The line-scanning loop of `generate_questions` (app.py lines 316-335).
The state `cur` is the `current_q` variable (`none` when no question is
pending).  Each line is stripped (`line.strip()`); empty lines are skipped;
a line with `line.startswith('Q:')` flushes any pending question and starts
a new one with empty answer from `line[2:].strip()`; a line with
`line.startswith('A:')` while a question is pending records the answer and
flushes immediately; a trailing pending question is flushed at the end. -/
def parseQuestionLines : Option QA → List (List Char) → List QA
  | none, [] => []
  | some q, [] => [q]
  | cur, line :: rest =>
    let l := pyStrip line
    if l = [] then
      parseQuestionLines cur rest
    else if l.take 2 = ['Q', ':'] then
      let newQ : QA := ⟨⟨pyStrip (l.drop 2)⟩, ""⟩
      match cur with
      | some q => q :: parseQuestionLines (some newQ) rest
      | none => parseQuestionLines (some newQ) rest
    else if l.take 2 = ['A', ':'] then
      match cur with
      | some q => { q with answer := ⟨pyStrip (l.drop 2)⟩ } :: parseQuestionLines none rest
      | none => parseQuestionLines none rest
    else
      parseQuestionLines cur rest

/-- The parser of `generate_questions` applied to a raw LLM reply:
`result.split('\n')` then the scanning loop. -/
def generate_questions_parse (result : String) : List QA :=
  parseQuestionLines none (splitNl result.data)

/-- The parsing algorithm as the specification describes it, written from the
spec's words: a pending question holds "whatever answer it currently holds";
a `Q:` line first flushes the pending question, then opens a new pending one;
an `A:` line while a question is pending sets that question's answer and
immediately flushes it; blank lines are ignored; a trailing pending question
is flushed at the end of the scan. -/
def specQuestionScan : List (List Char) → Option (String × String) → List QA
  | [], pending =>
    match pending with
    | some (q, a) => [⟨q, a⟩]
    | none => []
  | line :: rest, pending =>
    let l := pyStrip line
    if l = [] then
      specQuestionScan rest pending
    else if l.take 2 = ['Q', ':'] then
      match pending with
      | some (q, a) => ⟨q, a⟩ :: specQuestionScan rest (some (⟨pyStrip (l.drop 2)⟩, ""))
      | none => specQuestionScan rest (some (⟨pyStrip (l.drop 2)⟩, ""))
    else if l.take 2 = ['A', ':'] then
      match pending with
      | some (q, _) => ⟨q, ⟨pyStrip (l.drop 2)⟩⟩ :: specQuestionScan rest none
      | none => specQuestionScan rest pending
    else
      specQuestionScan rest pending

/-- The spec's parser over a whole reply. -/
def specQuestionParse (result : String) : List QA :=
  specQuestionScan (splitNl result.data) none

theorem parseQuestionLines_eq_specScan (lines : List (List Char)) :
    ∀ cur : Option (String × String),
      parseQuestionLines (cur.map fun p => ⟨p.1, p.2⟩) lines =
        specQuestionScan lines cur := by
  induction lines with
  | nil => intro cur; cases cur <;> rfl
  | cons line rest ih =>
    intro cur
    cases cur with
    | none =>
      simp only [Option.map_none', parseQuestionLines, specQuestionScan]
      by_cases h0 : pyStrip line = []
      · simpa [h0] using ih none
      · by_cases hq : (pyStrip line).take 2 = ['Q', ':']
        · simpa [h0, hq] using ih (some (⟨pyStrip ((pyStrip line).drop 2)⟩, ""))
        · by_cases ha : (pyStrip line).take 2 = ['A', ':']
          · simpa [h0, hq, ha] using ih none
          · simpa [h0, hq, ha] using ih none
    | some p =>
      simp only [Option.map_some', parseQuestionLines, specQuestionScan]
      by_cases h0 : pyStrip line = []
      · simpa [h0] using ih (some p)
      · by_cases hq : (pyStrip line).take 2 = ['Q', ':']
        · simpa [h0, hq] using
            congrArg (List.cons ⟨p.1, p.2⟩)
              (ih (some (⟨pyStrip ((pyStrip line).drop 2)⟩, "")))
        · by_cases ha : (pyStrip line).take 2 = ['A', ':']
          · simpa [h0, hq, ha] using
              congrArg (List.cons ⟨p.1, ⟨pyStrip ((pyStrip line).drop 2)⟩⟩) (ih none)
          · simpa [h0, hq, ha] using ih (some p)

/-! ## The LLM gateway and the per-chunk generation steps -/

/-- Outcome of one `query_openrouter` call: it returns the reply content,
returns `None` when the provider's answer has no usable `choices` entry, or
raises (missing credential, non-2xx status, transport failure — all
re-raised as exceptions). -/
inductive GwResult where
  | ok (content : Option String)
  | exn
deriving DecidableEq

/-- The gateway as an oracle: the reply as a function of the prompt. -/
abbrev Gateway := List Char → GwResult

/-- Prompt built by `generate_summary`: the template around `text[:15000]`. -/
def summaryPrompt (text : List Char) : List Char :=
  "Write a concise summary of the following text:\n\n".data ++ text.take 15000

/-- Prompt built by `generate_questions` (the f-string template with its
source indentation) around `text[:15000]`. -/
def questionsPrompt (text : List Char) : List Char :=
  "Generate exam-style questions with answers based on:\n        ".data ++
    text.take 15000 ++
    "\n        Format each as: Q: [question]\nA: [answer]".data

/-- `generate_summary` (app.py lines 298-304): query the gateway and return
`result or "Failed to generate summary"`; exceptions are wrapped and
re-raised (`.error ()`).  Python's `or` takes the fallback when the result
is `None` or the empty string. -/
def generate_summary (g : Gateway) (text : List Char) : Except Unit String :=
  match g (summaryPrompt text) with
  | .ok (some r) => if r = "" then .ok "Failed to generate summary" else .ok r
  | .ok none => .ok "Failed to generate summary"
  | .exn => .error ()

/-- `generate_questions` (app.py lines 306-338): query the gateway; a falsy
result (`None` or `""`) yields `[]`; otherwise the reply is parsed;
exceptions are wrapped and re-raised. -/
def generate_questions (g : Gateway) (text : List Char) : Except Unit (List QA) :=
  match g (questionsPrompt text) with
  | .ok (some r) => if r = "" then .ok [] else .ok (generate_questions_parse r)
  | .ok none => .ok []
  | .exn => .error ()

/-! ## The per-chunk loop of `process_document` -/

/-- Where, if anywhere, the 15-second `signal.alarm` deadline of
`with timeout(15)` interrupts a chunk's processing.  `timeoutDuringSummary`:
the alarm fires before `generate_summary` returns (nothing was recorded yet).
`timeoutDuringQuestions`: the alarm fires after the summary was appended but
before the chunk's questions were recorded.  `completes`: the alarm does not
fire. -/
inductive ChunkTiming where
  | timeoutDuringSummary
  | timeoutDuringQuestions
  | completes
deriving DecidableEq

/-- One iteration of the chunk loop (app.py lines 188-201) on the state
`(summaries, questions)`.  `TimeoutException` and every other exception lead
to `continue`, keeping whatever was already appended. -/
def processChunk (g : Gateway) (t : ChunkTiming) (chunk : List Char)
    (st : List String × List QA) : List String × List QA :=
  match t with
  | .timeoutDuringSummary => st
  | .timeoutDuringQuestions =>
    match generate_summary g chunk with
    | .error _ => st
    | .ok summary =>
      (if summary ≠ "" then st.1 ++ [summary] else st.1, st.2)
  | .completes =>
    match generate_summary g chunk with
    | .error _ => st
    | .ok summary =>
      let summaries := if summary ≠ "" then st.1 ++ [summary] else st.1
      match generate_questions g chunk with
      | .error _ => (summaries, st.2)
      | .ok chunk_questions =>
        (summaries, if chunk_questions ≠ [] then st.2 ++ chunk_questions else st.2)

/-- The chunk loop: chunk `i` of the document runs under timing `tim i`. -/
def processChunks (g : Gateway) (tim : Nat → ChunkTiming) :
    List (List Char) → Nat → List String × List QA → List String × List QA
  | [], _, st => st
  | chunk :: rest, i, st =>
    processChunks g tim rest (i + 1) (processChunk g (tim i) chunk st)

/-! ## Chunking and aggregation -/

/-- Python's `range(0, stop, step)` for `step > 0`: the multiples of `step`
below `stop`, in order (`⌈stop/step⌉` of them). -/
def pyRange (stop step : Nat) : List Nat :=
  (List.range ((stop + step - 1) / step)).map (· * step)

/-- The chunker of `process_document` (app.py line 184):
`[text[i:i+chunk_size] for i in range(0, len(text), chunk_size)]`. -/
def pyChunks (chunk_size : Nat) (text : List Char) : List (List Char) :=
  (pyRange text.length chunk_size).map fun i => (text.drop i).take chunk_size

/-- Python's `" ".join(summaries)`. -/
def joinSpace : List String → String
  | [] => ""
  | [s] => s
  | s :: rest => s ++ " " ++ joinSpace rest

/-- A value in the serialized `questions` JSON array: normally a
question/answer pair (a dict), but the placeholder list holds a bare
string. -/
inductive JsonQ where
  | pair (question answer : String)
  | str (s : String)
deriving DecidableEq

/-- Is this JSON array element a question/answer pair? -/
def JsonQ.isPair : JsonQ → Prop
  | .pair _ _ => True
  | .str _ => False

instance : DecidablePred JsonQ.isPair := fun q => by
  cases q <;> simp [JsonQ.isPair] <;> infer_instance

/-- The HTTP response of `process_document`: `.ok` is the `jsonify(...)`
with implicit status 200, `.err` a `jsonify({"error": ...}), code` pair. -/
inductive Response where
  | ok (summary : String) (questions : List JsonQ) (status : String)
  | err (code : Nat) (msg : String)
deriving DecidableEq

/-- The HTTP status code of a response (Flask's default for `jsonify`
without an explicit code is 200). -/
def Response.code : Response → Nat
  | .ok _ _ _ => 200
  | .err c _ => c

/-- `process_document` (app.py lines 155-217) from the extraction result
onward: `extracted` is the outcome of the `extract_text_from_*` call
(`.error` when it raised), `g` the LLM gateway, `tim` the per-chunk timing.
Covers the "No readable text" gate, the chunk loop, aggregation with the
two placeholders, and the 500 handler for extraction failures. -/
def process_document (g : Gateway) (tim : Nat → ChunkTiming)
    (extracted : Except String (List Char)) : Response :=
  match extracted with
  | .error e => .err 500 ("Failed to process document: " ++ e)
  | .ok text =>
    if text = [] ∨ (pyStrip text).length < 100 then
      .err 400 "No readable text in file"
    else
      let chunks := pyChunks 5000 text
      let st := processChunks g tim chunks 0 ([], [])
      let final_summary := pyStripS (joinSpace st.1)
      .ok (if final_summary = "" then "No summary generated" else final_summary)
        (if st.2 = [] then [JsonQ.str "No questions generated"]
         else st.2.map fun q => JsonQ.pair q.question q.answer)
        "success"

/-! ## PDF text extraction -/

/-- One page of a parsed PDF, as seen by the extraction loop:
`.bad` when `pages[i].extract_text()` raises, `.content s` when it returns
the string `s` (possibly empty). -/
inductive Page where
  | bad
  | content (s : String)
deriving DecidableEq

/-- The body of the per-page loop of `extract_text_from_pdf` (app.py lines
235-241): a raising page is skipped (`except Exception: continue`); a falsy
`page_text` is skipped; otherwise `text += page_text.strip() + "\n"`. -/
def pdfPageStep (acc : String) : Page → String
  | .bad => acc
  | .content s => if s = "" then acc else acc ++ pyStripS s ++ "\n"

/-- The page indices visited by the batched loops of `extract_text_from_pdf`
(app.py lines 232-235): `for batch_start in range(0, page_count, 5)` and,
inside, `for page_num in range(batch_start, min(batch_start + 5, page_count))`. -/
def batchIndices (page_count : Nat) : List Nat :=
  (pyRange page_count 5).flatMap fun batch_start =>
    List.range' batch_start (min (batch_start + 5) page_count - batch_start)

/-- `extract_text_from_pdf` (app.py lines 221-246) after a successful parse
of the byte stream into `pages`: visit the pages batch by batch, accumulate
the stripped page texts, and return `text.strip()` or the sentinel when it
is empty. -/
def extract_text_from_pdf (pages : List Page) : String :=
  let text := (batchIndices pages.length).foldl
    (fun acc i => pdfPageStep acc (pages.getD i .bad)) ""
  if pyStripS text = "" then "No readable text found in PDF" else pyStripS text

/-! ## Token verification and the route guard -/

/-- The subscription API's reaction to one `requests.get` with a given
`Authorization` header: an HTTP response with a status code and a JSON
identity body, or a transport failure (`requests.exceptions.RequestException`).
Per the external-interface contract, a 200 answer carries the JSON identity
payload. -/
inductive WhopApi where
  | response (status : Nat) (body : String)
  | transportError
deriving DecidableEq

/-- The Flask session, as used by the auth helpers: presence of the
`whop_verified` key and the cached `whop_user` payload. -/
structure WhopSession where
  verified : Bool
  user : Option String
deriving DecidableEq

/-- A fresh session: neither key set. -/
def emptySession : WhopSession := ⟨false, none⟩

/-- The `Bearer` normalization at the top of `verify_whop_token`. -/
def bearerize (token : String) : String :=
  if token.startsWith "Bearer " then token else "Bearer " ++ token

/-- `verify_whop_token` (app.py lines 76-92): send the normalized token to
the subscription API (`api` gives that request's outcome); on status 200 set
`session['whop_verified']` and cache `session['whop_user']` and return
`True`; on any other status, or on a transport error, leave the session
alone and return `False`. -/
def verify_whop_token (api : String → WhopApi) (token : String)
    (s : WhopSession) : Bool × WhopSession :=
  match api (bearerize token) with
  | .response status body =>
    if status = 200 then (true, ⟨true, some body⟩) else (false, s)
  | .transportError => (false, s)

/-- Outcome of the `whop_required` guard: run the wrapped view, or redirect
to the verification page. -/
inductive GuardResult where
  | allow
  | redirectVerify
deriving DecidableEq

/-- The `whop_required` decorator (app.py lines 60-74): development mode
bypasses the check; a session with `whop_verified` passes; otherwise a
truthy `Authorization` header is verified (which may update the session);
anything else redirects to `/verify`. -/
def whop_required (devMode : Bool) (api : String → WhopApi)
    (s : WhopSession) (token : Option String) : GuardResult × WhopSession :=
  if devMode then (.allow, s)
  else if s.verified then (.allow, s)
  else
    match token with
    | some t =>
      if t ≠ "" then
        let r := verify_whop_token api t s
        if r.1 then (.allow, r.2) else (.redirectVerify, r.2)
      else (.redirectVerify, s)
    | none => (.redirectVerify, s)

/-! ## C1: the question parser -/

/-- C1: the question parser of `generate_questions`, given any LLM reply
text, scans its lines in order and produces the question list exactly as the
specification's parsing algorithm describes (pending question flushed by a
new `Q:` line with whatever answer it holds, `A:` line sets the answer and
flushes, blank lines ignored, trailing pending question flushed); in
particular `"Q: a\nA: 1\nQ: b\nA: 2"` yields `[{a,1},{b,2}]` and
`"Q: a\nQ: b\nA: 2"` yields `[{a,""},{b,2}]`. -/
theorem claim_C1_question_parsing :
    (∀ reply : String, generate_questions_parse reply = specQuestionParse reply) ∧
    generate_questions_parse "Q: a\nA: 1\nQ: b\nA: 2" =
      [⟨"a", "1"⟩, ⟨"b", "2"⟩] ∧
    generate_questions_parse "Q: a\nQ: b\nA: 2" =
      [⟨"a", ""⟩, ⟨"b", "2"⟩] := by
  refine ⟨fun reply => ?_, by decide, by decide⟩
  simpa using parseQuestionLines_eq_specScan (splitNl reply.data) none

/-! ## Chunker lemmas and C2 -/

theorem pyRange_succ (stop step : Nat) (hstep : 0 < step) (hstop : 0 < stop) :
    pyRange stop step = 0 :: (pyRange (stop - step) step).map (· + step) := by
  have hcount : (stop + step - 1) / step = (stop - 1) / step + 1 := by
    have h1 : stop + step - 1 = (stop - 1) + step := by omega
    rw [h1, Nat.add_div_right _ hstep]
  have hk : (stop - step + step - 1) / step = (stop - 1) / step := by
    rcases Nat.lt_or_ge stop step with h | h
    · have h1 : stop - step + step - 1 = step - 1 := by omega
      have h2 : (step - 1) / step = 0 := Nat.div_eq_of_lt (by omega)
      have h3 : (stop - 1) / step = 0 := Nat.div_eq_of_lt (by omega)
      rw [h1, h2, h3]
    · have h1 : stop - step + step - 1 = stop - 1 := by omega
      rw [h1]
  unfold pyRange
  rw [hcount, hk, List.range_succ_eq_map]
  simp only [List.map_cons, Nat.zero_mul, List.map_map]
  congr 1
  apply List.map_congr_left
  intro i _
  simp [Function.comp, Nat.succ_mul]

theorem pyRange_zero (step : Nat) : pyRange 0 step = [] := by
  unfold pyRange
  rcases Nat.eq_zero_or_pos step with h | h
  · simp [h]
  · rw [Nat.zero_add, Nat.div_eq_of_lt (by omega)]
    rfl

theorem pyChunks_nil (c : Nat) : pyChunks c [] = [] := by
  simp [pyChunks, pyRange_zero]

theorem pyChunks_cons (c : Nat) (hc : 0 < c) (s : List Char) (hs : s ≠ []) :
    pyChunks c s = s.take c :: pyChunks c (s.drop c) := by
  unfold pyChunks
  rw [pyRange_succ s.length c hc (List.length_pos.mpr hs)]
  simp only [List.map_cons, List.drop_zero, List.map_map, List.length_drop]
  refine congrArg (List.cons _) ?_
  apply List.map_congr_left
  intro i _
  simp only [Function.comp_apply]
  rw [List.drop_drop, Nat.add_comm c i]

theorem pyChunks_flatten (c : Nat) (hc : 0 < c) (s : List Char) :
    (pyChunks c s).flatten = s := by
  generalize hn : s.length = n
  induction n using Nat.strong_induction_on generalizing s with
  | _ n ih =>
    rcases eq_or_ne s [] with rfl | hs
    · simp [pyChunks_nil]
    · rw [pyChunks_cons c hc s hs, List.flatten_cons,
        ih (s.drop c).length ?_ (s.drop c) rfl, List.take_append_drop]
      rw [List.length_drop, ← hn]
      have : 0 < s.length := List.length_pos.mpr hs
      omega

theorem pyChunks_length_eq (c : Nat) (hc : 0 < c) (s : List Char) (j : Nat)
    (hj : j + 1 < (pyChunks c s).length) :
    ((pyChunks c s).getD j []).length = c := by
  generalize hn : s.length = n
  induction n using Nat.strong_induction_on generalizing s j with
  | _ n ih =>
    rcases eq_or_ne s [] with rfl | hs
    · rw [pyChunks_nil] at hj; simp at hj
    · rw [pyChunks_cons c hc s hs] at hj ⊢
      cases j with
      | zero =>
        have hdrop : s.drop c ≠ [] := by
          intro h
          rw [h, pyChunks_nil] at hj
          simp at hj
        have : c < s.length := by
          have := List.length_pos.mpr hdrop
          rw [List.length_drop] at this
          omega
        simp [List.length_take]
        omega
      | succ j =>
        have hlen : 0 < s.length := List.length_pos.mpr hs
        simp only [List.getD_cons_succ]
        refine ih (s.drop c).length ?_ (s.drop c) j ?_ rfl
        · rw [List.length_drop, ← hn]; omega
        · simpa using hj

/-- C2: the chunking step (slicing at fixed offsets with chunk size 5000)
maps the empty string to the empty sequence, its chunks concatenate back to
the input in order, and every chunk but possibly the last has length exactly
5000. -/
theorem claim_C2_chunker :
    pyChunks 5000 ([] : List Char) = [] ∧
    (∀ s : List Char, (pyChunks 5000 s).flatten = s) ∧
    (∀ (s : List Char) (j : Nat), j + 1 < (pyChunks 5000 s).length →
      ((pyChunks 5000 s).getD j []).length = 5000) :=
  ⟨pyChunks_nil 5000, fun s => pyChunks_flatten 5000 (by omega) s,
    fun s j hj => pyChunks_length_eq 5000 (by omega) s j hj⟩

/-- Witness for C2 at a concrete 5001-character input: the first of its two
chunks has length exactly 5000. -/
theorem claim_C2_chunker_witness :
    ((pyChunks 5000 (List.replicate 5001 'a')).getD 0 []).length = 5000 :=
  claim_C2_chunker.2.2 (List.replicate 5001 'a') 0 (by
    have h1 : (List.replicate 5001 'a' : List Char) ≠ [] :=
      List.length_pos.mp (by rw [List.length_replicate]; omega)
    have h2 : ((List.replicate 5001 'a' : List Char).drop 5000) ≠ [] :=
      List.length_pos.mp (by rw [List.length_drop, List.length_replicate]; omega)
    rw [pyChunks_cons 5000 (by omega) _ h1, pyChunks_cons 5000 (by omega) _ h2,
      List.length_cons, List.length_cons]
    omega)

/-! ## Shared concrete oracles for witnesses and counterexamples -/

/-- A gateway whose every call succeeds but carries no usable content. -/
def gwNone : Gateway := fun _ => .ok none

/-- A gateway that always replies `"S"`. -/
def gwS : Gateway := fun _ => .ok (some "S")

/-- Every chunk completes within the deadline. -/
def timCompletes : Nat → ChunkTiming := fun _ => .completes

/-- Every chunk's alarm fires during question generation. -/
def timTQ : Nat → ChunkTiming := fun _ => .timeoutDuringQuestions

/-- Every chunk's alarm fires during summary generation. -/
def timTS : Nat → ChunkTiming := fun _ => .timeoutDuringSummary

/-- A 100-character extracted text. -/
def text100 : List Char := List.replicate 100 'a'

/-! ## C3: per-chunk failure handling -/

/-- C3 is refuted: a chunk whose 15-second deadline expires during question
generation has already had its summary appended, so the failed chunk does
contribute to the aggregated result.  Concretely, with a gateway replying
`"S"` and the alarm firing during question generation on the single chunk of
a 100-character text, the response summary is `"S"` (not the untouched
placeholder) while the claim predicts the chunk contributes nothing. -/
theorem claim_C3_counterexample :
    process_document gwS timTQ (.ok text100) =
      .ok "S" [JsonQ.str "No questions generated"] "success" ∧
    ("S" : String) ≠ "No summary generated" ∧
    processChunk gwS .timeoutDuringQuestions text100 ([], []) = (["S"], []) ∧
    ((["S"], []) : List String × List QA) ≠ ([], []) :=
  ⟨rfl, by decide, rfl, by decide⟩

/-- C3 amended: a chunk whose failure (deadline or exception) happens during
summary generation contributes nothing; when the deadline expires during
question generation, or when question generation raises an exception, the
chunk's already-appended (nonempty) summary is kept and none of its
questions are included — the resulting state is exactly the summary append
with the questions untouched in both arms; a failing question generation
never adds questions; and the loop always continues with the next chunk — a
single chunk's failure never aborts the request. -/
theorem claim_C3_amended (g : Gateway) (t : ChunkTiming) (chunk : List Char)
    (st : List String × List QA) :
    (t = .timeoutDuringSummary → processChunk g t chunk st = st) ∧
    (generate_summary g chunk = .error () → processChunk g t chunk st = st) ∧
    (∀ s, generate_summary g chunk = .ok s → t = .timeoutDuringQuestions →
      processChunk g t chunk st =
        (if s ≠ "" then st.1 ++ [s] else st.1, st.2)) ∧
    (∀ s, generate_summary g chunk = .ok s → t = .completes →
      generate_questions g chunk = .error () →
      processChunk g t chunk st =
        (if s ≠ "" then st.1 ++ [s] else st.1, st.2)) ∧
    (generate_questions g chunk = .error () →
      (processChunk g t chunk st).2 = st.2) ∧
    (∀ (tim : Nat → ChunkTiming) (rest : List (List Char)) (i : Nat),
      processChunks g tim (chunk :: rest) i st =
        processChunks g tim rest (i + 1) (processChunk g (tim i) chunk st)) := by
  refine ⟨?_, ?_, ?_, ?_, ?_, fun tim rest i => rfl⟩
  · rintro rfl; rfl
  · intro hs
    cases t <;> simp [processChunk, hs]
  · intro s hs ht
    subst ht
    simp [processChunk, hs]
  · intro s hs ht hq
    subst ht
    simp [processChunk, hs, hq]
  · intro hq
    cases t with
    | timeoutDuringSummary => rfl
    | timeoutDuringQuestions =>
      cases hs : generate_summary g chunk <;> simp [processChunk, hs]
    | completes =>
      cases hs : generate_summary g chunk <;> simp [processChunk, hs, hq]

/-- A gateway that replies `"S"` to the summary prompt of `text100` but
raises on its questions prompt. -/
def gwSummaryOnly : Gateway := fun p =>
  if p = questionsPrompt text100 then .exn else .ok (some "S")

set_option maxRecDepth 8000 in
/-- Witness for the amended C3: a chunk interrupted during summary
generation leaves the state untouched, and a chunk whose question
generation raises keeps exactly its appended summary with no questions. -/
theorem claim_C3_amended_witness :
    processChunk gwNone .timeoutDuringSummary text100 ([], []) = ([], []) ∧
    processChunk gwSummaryOnly .completes text100 ([], []) =
      (if ("S" : String) ≠ "" then ([] : List String) ++ ["S"] else [],
        ([] : List QA)) :=
  ⟨(claim_C3_amended gwNone .timeoutDuringSummary text100 ([], [])).1 rfl,
   (claim_C3_amended gwSummaryOnly .completes text100 ([], [])).2.2.2.1 "S"
     rfl rfl rfl⟩

/-! ## C4 and C5: the orchestrator's response policy -/

/-- Once the length gate passes, `process_document` returns the 200 success
response built from whatever the chunk loop produced, with the two
placeholder substitutions. -/
theorem process_document_ok_of_ge (g : Gateway) (tim : Nat → ChunkTiming)
    (text : List Char) (h : 100 ≤ (pyStrip text).length) :
    process_document g tim (.ok text) =
      .ok (if pyStripS (joinSpace
              (processChunks g tim (pyChunks 5000 text) 0 ([], [])).1) = ""
           then "No summary generated"
           else pyStripS (joinSpace
              (processChunks g tim (pyChunks 5000 text) 0 ([], [])).1))
        (if (processChunks g tim (pyChunks 5000 text) 0 ([], [])).2 = []
         then [JsonQ.str "No questions generated"]
         else (processChunks g tim (pyChunks 5000 text) 0 ([], [])).2.map
          fun q => JsonQ.pair q.question q.answer)
        "success" := by
  have hne : ¬(text = [] ∨ (pyStrip text).length < 100) := by
    rintro (rfl | hlt)
    · exact absurd h (by decide)
    · omega
  simp only [process_document]
  rw [if_neg hne]

/-- C4: after extraction succeeded and the length gate passed, the response
is always HTTP 200 with status `"success"`, for every outcome of the
per-chunk generation: the summary is the successful chunks' summaries joined
with a single space and trimmed (placeholder `"No summary generated"` if
empty) and the questions are the successful chunks' questions in order
(one-element placeholder list if empty); never a 500. -/
theorem claim_C4_graceful_success (g : Gateway) (tim : Nat → ChunkTiming)
    (text : List Char) (h : 100 ≤ (pyStrip text).length) :
    process_document g tim (.ok text) =
      .ok (if pyStripS (joinSpace
              (processChunks g tim (pyChunks 5000 text) 0 ([], [])).1) = ""
           then "No summary generated"
           else pyStripS (joinSpace
              (processChunks g tim (pyChunks 5000 text) 0 ([], [])).1))
        (if (processChunks g tim (pyChunks 5000 text) 0 ([], [])).2 = []
         then [JsonQ.str "No questions generated"]
         else (processChunks g tim (pyChunks 5000 text) 0 ([], [])).2.map
          fun q => JsonQ.pair q.question q.answer)
        "success" ∧
    (process_document g tim (.ok text)).code = 200 := by
  refine ⟨process_document_ok_of_ge g tim text h, ?_⟩
  rw [process_document_ok_of_ge g tim text h]
  rfl

/-- Witness for C4: every chunk of a concrete 100-character text times out,
yet the response is the 200 success response with both placeholders. -/
theorem claim_C4_witness :
    process_document gwNone timTS (.ok text100) =
      .ok (if pyStripS (joinSpace
              (processChunks gwNone timTS (pyChunks 5000 text100) 0 ([], [])).1) = ""
           then "No summary generated"
           else pyStripS (joinSpace
              (processChunks gwNone timTS (pyChunks 5000 text100) 0 ([], [])).1))
        (if (processChunks gwNone timTS (pyChunks 5000 text100) 0 ([], [])).2 = []
         then [JsonQ.str "No questions generated"]
         else (processChunks gwNone timTS (pyChunks 5000 text100) 0 ([], [])).2.map
          fun q => JsonQ.pair q.question q.answer)
        "success" ∧
    (process_document gwNone timTS (.ok text100)).code = 200 :=
  claim_C4_graceful_success gwNone timTS text100 (by decide)

/-- C5: a trimmed extracted text below 100 characters fails with the 400
"No readable text in file" client error before any chunking or generation;
at 100 or more, processing proceeds to a success response. -/
theorem claim_C5_length_gate (g : Gateway) (tim : Nat → ChunkTiming)
    (text : List Char) :
    ((pyStrip text).length < 100 →
      process_document g tim (.ok text) = .err 400 "No readable text in file") ∧
    (100 ≤ (pyStrip text).length →
      ∃ s qs, process_document g tim (.ok text) = .ok s qs "success") := by
  constructor
  · intro hlt
    simp only [process_document]
    rw [if_pos (Or.inr hlt)]
  · intro hge
    exact ⟨_, _, process_document_ok_of_ge g tim text hge⟩

/-- Witness for C5 at the claim's own boundary: trimmed length 99 yields the
400 client error, trimmed length 100 proceeds to a success response. -/
theorem claim_C5_witness :
    process_document gwNone timCompletes (.ok (List.replicate 99 'a')) =
      .err 400 "No readable text in file" ∧
    (∃ s qs, process_document gwNone timCompletes (.ok (List.replicate 100 'a')) =
      .ok s qs "success") :=
  ⟨(claim_C5_length_gate gwNone timCompletes _).1 (by decide),
   (claim_C5_length_gate gwNone timCompletes _).2 (by decide)⟩

/-! ## C6: the shape of the success response -/

/-- C6 is refuted: when no chunk produced any questions, the success
response's `questions` list is the placeholder `["No questions generated"]`,
whose single element is a bare string, not a `{question, answer}` pair.
Concretely, a gateway with no usable content on a 100-character text gives a
success response whose questions element is not a pair. -/
theorem claim_C6_counterexample :
    process_document gwNone timCompletes (.ok text100) =
      .ok "Failed to generate summary" [JsonQ.str "No questions generated"]
        "success" ∧
    ¬ JsonQ.isPair (JsonQ.str "No questions generated") :=
  ⟨rfl, fun h => h⟩

/-- C6 amended: every success response has status `"success"`, and its
questions list either consists entirely of `{question, answer}` pairs (when
at least one chunk produced questions) or is the one-element placeholder
whose element is the bare string `"No questions generated"`. -/
theorem claim_C6_amended (g : Gateway) (tim : Nat → ChunkTiming)
    (extracted : Except String (List Char)) (s : String) (qs : List JsonQ)
    (st : String) (h : process_document g tim extracted = .ok s qs st) :
    st = "success" ∧
    (qs = [JsonQ.str "No questions generated"] ∨ ∀ e ∈ qs, JsonQ.isPair e) := by
  cases extracted with
  | error e => simp [process_document] at h
  | ok text =>
    by_cases hc : text = [] ∨ (pyStrip text).length < 100
    · have hbad : process_document g tim (.ok text) =
          .err 400 "No readable text in file" := by
        simp only [process_document]
        rw [if_pos hc]
      rw [hbad] at h
      exact absurd h (by simp)
    · have hge : 100 ≤ (pyStrip text).length := by
        push_neg at hc
        omega
      rw [process_document_ok_of_ge g tim text hge] at h
      injection h with h1 h2 h3
      subst h3
      refine ⟨rfl, ?_⟩
      by_cases hq : (processChunks g tim (pyChunks 5000 text) 0 ([], [])).2 = []
      · left
        rw [if_pos hq] at h2
        exact h2.symm
      · right
        rw [if_neg hq] at h2
        intro e he
        rw [← h2] at he
        obtain ⟨q, _, rfl⟩ := List.mem_map.mp he
        trivial

/-- Witness for the amended C6 at a concrete run that takes the placeholder
branch. -/
theorem claim_C6_amended_witness :
    ("success" : String) = "success" ∧
    ([JsonQ.str "No questions generated"] = [JsonQ.str "No questions generated"] ∨
      ∀ e ∈ [JsonQ.str "No questions generated"], JsonQ.isPair e) :=
  claim_C6_amended gwNone timCompletes (.ok text100) _ _ _ rfl

/-! ## C8: token verification and the session guard -/

/-- C8: `verify_whop_token` returns `True` iff the subscription API answered
status 200; only then is the verified session established (with the identity
payload cached); a non-200 answer or a transport failure leaves the session
untouched and returns `False`; and after a 200 answer a subsequent request
carrying that session with no token passes the `whop_required` guard. -/
theorem claim_C8_token_verification :
    (∀ (api : String → WhopApi) (token : String) (s : WhopSession),
      (verify_whop_token api token s).1 = true ↔
        ∃ b, api (bearerize token) = .response 200 b) ∧
    (∀ (api : String → WhopApi) (token : String) (s : WhopSession),
      s.verified = false →
      ((verify_whop_token api token s).2.verified = true ↔
        ∃ b, api (bearerize token) = .response 200 b)) ∧
    (∀ (api : String → WhopApi) (token : String) (s : WhopSession)
      (b : String), api (bearerize token) = .response 200 b →
      (verify_whop_token api token s).2 = ⟨true, some b⟩) ∧
    (∀ (api : String → WhopApi) (token : String) (s : WhopSession),
      (verify_whop_token api token s).1 = false →
      (verify_whop_token api token s).2 = s) ∧
    (∀ (devMode : Bool) (api api₂ : String → WhopApi) (token : String)
      (s : WhopSession) (b : String),
      api (bearerize token) = .response 200 b →
      whop_required devMode api₂ ((verify_whop_token api token s).2) none =
        (.allow, (verify_whop_token api token s).2)) := by
  refine ⟨?_, ?_, ?_, ?_, ?_⟩
  · intro api token s
    constructor
    · intro h1
      cases h : api (bearerize token) with
      | response status body =>
        by_cases hs : status = 200
        · subst hs
          exact ⟨body, rfl⟩
        · simp [verify_whop_token, h, hs] at h1
      | transportError => simp [verify_whop_token, h] at h1
    · rintro ⟨b, hb⟩
      simp [verify_whop_token, hb]
  · intro api token s hsv
    constructor
    · intro h2
      cases h : api (bearerize token) with
      | response status body =>
        by_cases hs : status = 200
        · subst hs
          exact ⟨body, rfl⟩
        · simp [verify_whop_token, h, hs, hsv] at h2
      | transportError =>
        simp [verify_whop_token, h, hsv] at h2
    · rintro ⟨b, hb⟩
      simp [verify_whop_token, hb]
  · intro api token s b hb
    simp [verify_whop_token, hb]
  · intro api token s h1
    cases h : api (bearerize token) with
    | response status body =>
      by_cases hs : status = 200
      · subst hs
        simp [verify_whop_token, h] at h1
      · simp [verify_whop_token, h, hs]
    | transportError => simp [verify_whop_token, h]
  · intro devMode api api₂ token s b hb
    have h2 : (verify_whop_token api token s).2 = ⟨true, some b⟩ := by
      simp [verify_whop_token, hb]
    rw [h2]
    cases devMode <;> rfl

/-- A subscription API that answers 200 with an identity payload to every
request. -/
def apiOk : String → WhopApi := fun _ => .response 200 "user"

/-- Witness for C8: verifying against a 200-answering API caches the
payload, and the resulting session then passes the guard with no token. -/
theorem claim_C8_witness :
    (verify_whop_token apiOk "t" emptySession).2 = ⟨true, some "user"⟩ ∧
    whop_required false apiOk ((verify_whop_token apiOk "t" emptySession).2)
      none = (.allow, (verify_whop_token apiOk "t" emptySession).2) :=
  ⟨claim_C8_token_verification.2.2.1 apiOk "t" emptySession "user" rfl,
   claim_C8_token_verification.2.2.2.2 false apiOk apiOk "t" emptySession
     "user" rfl⟩

/-! ## C9: determinism of the pipeline -/

/-- C9: the pipeline from extraction result to final response is a
deterministic function of the document text and of the gateway's and
deadline's behaviour: two runs whose gateways answer identically on every
prompt and whose chunk timings agree produce identical responses. -/
theorem claim_C9_determinism (extracted : Except String (List Char))
    (g₁ g₂ : Gateway) (tim₁ tim₂ : Nat → ChunkTiming)
    (hg : ∀ p, g₁ p = g₂ p) (ht : ∀ i, tim₁ i = tim₂ i) :
    process_document g₁ tim₁ extracted = process_document g₂ tim₂ extracted := by
  have h1 : g₁ = g₂ := funext hg
  have h2 : tim₁ = tim₂ := funext ht
  rw [h1, h2]

/-- Witness for C9 at a concrete document and gateway. -/
theorem claim_C9_determinism_witness :
    process_document gwNone timCompletes (.ok text100) =
      process_document gwNone timCompletes (.ok text100) :=
  claim_C9_determinism (.ok text100) gwNone gwNone timCompletes timCompletes
    (fun _ => rfl) (fun _ => rfl)

/-! ## C7: batched PDF extraction -/

theorem batch_aux (n : Nat) : ∀ q s : Nat, n ≤ s + 5 * q →
    (List.range q).flatMap
      (fun k => List.range' (s + 5 * k) (min (s + 5 * k + 5) n - (s + 5 * k))) =
    List.range' s (n - s) := by
  intro q
  induction q with
  | zero =>
    intro s hs
    have h0 : n - s = 0 := by omega
    simp [h0]
  | succ q ih =>
    intro s hs
    simp only [List.range_succ_eq_map, List.flatMap_cons, List.flatMap_map,
      Nat.succ_eq_add_one, Nat.mul_zero, Nat.add_zero]
    have hfun : (fun a => List.range' (s + 5 * (a + 1))
          (min (s + 5 * (a + 1) + 5) n - (s + 5 * (a + 1))))
        = fun k => List.range' (s + 5 + 5 * k)
          (min (s + 5 + 5 * k + 5) n - (s + 5 + 5 * k)) := by
      funext a
      rw [show s + 5 * (a + 1) = s + 5 + 5 * a from by ring]
    rw [hfun, ih (s + 5) (by omega)]
    rcases Nat.lt_or_ge n (s + 5) with h5 | h5
    · have hz : n - (s + 5) = 0 := by omega
      rw [hz, List.range'_zero, List.append_nil,
        Nat.min_eq_right (by omega : n ≤ s + 5)]
    · rw [Nat.min_eq_left h5, show s + 5 - s = 5 from by omega]
      rw [List.range'_append_1 s 5 (n - (s + 5))]
      congr 1
      omega

theorem batchIndices_eq_range (n : Nat) : batchIndices n = List.range n := by
  have h0 : batchIndices n = (List.range ((n + 5 - 1) / 5)).flatMap
      (fun k => List.range' (0 + 5 * k) (min (0 + 5 * k + 5) n - (0 + 5 * k))) := by
    unfold batchIndices pyRange
    rw [List.flatMap_map]
    refine congrArg (List.flatMap _) (funext fun a => ?_)
    rw [show a * 5 = 0 + 5 * a from by ring]
  rw [h0, batch_aux n ((n + 5 - 1) / 5) 0 (by omega)]
  rw [Nat.sub_zero, List.range_eq_range']

theorem foldl_range_getD {α β : Type} (d : α) (f : β → α → β) (l : List α)
    (a : β) :
    (List.range l.length).foldl (fun acc i => f acc (l.getD i d)) a =
      l.foldl f a := by
  induction l generalizing a with
  | nil => rfl
  | cons x xs ih =>
    rw [List.length_cons, List.range_succ_eq_map, List.foldl_cons, List.foldl_map]
    simp only [List.getD_cons_zero, Nat.succ_eq_add_one, List.getD_cons_succ]
    exact ih (f a x)

/-- The batched index loops of `extract_text_from_pdf` visit exactly the
pages in document order, so the accumulation is a fold over the pages. -/
theorem extract_text_from_pdf_eq_foldl (pages : List Page) :
    extract_text_from_pdf pages =
      (if pyStripS (pages.foldl pdfPageStep "") = ""
       then "No readable text found in PDF"
       else pyStripS (pages.foldl pdfPageStep "")) := by
  unfold extract_text_from_pdf
  rw [batchIndices_eq_range, foldl_range_getD]

theorem pdf_fold_skip (xs ys : List Page) (a : String) :
    (xs ++ Page.bad :: ys).foldl pdfPageStep a = (xs ++ ys).foldl pdfPageStep a := by
  rw [List.foldl_append, List.foldl_append, List.foldl_cons]
  rfl

theorem pdf_fold_noText (pages : List Page) (a : String)
    (h : ∀ p ∈ pages, p = Page.bad ∨ p = Page.content "") :
    pages.foldl pdfPageStep a = a := by
  induction pages generalizing a with
  | nil => rfl
  | cons p rest ih =>
    rw [List.foldl_cons]
    have hstep : pdfPageStep a p = a := by
      rcases h p (List.mem_cons_self p rest) with rfl | rfl <;> rfl
    rw [hstep]
    exact ih a (fun p hp => h p (List.mem_cons_of_mem _ hp))

/-- C7: PDF extraction visits pages in document order in batches of 5; a
page whose extraction raises is skipped and extraction continues (deleting a
raising page from the document never changes the result — in particular it
never aborts); a concrete five-page document with one unreadable page yields
the four readable pages' text; and when no page yields text the sentinel
string is returned instead of failing. -/
theorem claim_C7_pdf_extraction :
    (∀ n, batchIndices n = List.range n) ∧
    (∀ xs ys : List Page, extract_text_from_pdf (xs ++ Page.bad :: ys) =
      extract_text_from_pdf (xs ++ ys)) ∧
    extract_text_from_pdf
      [.content "a", .content "b", .bad, .content "c", .content "d"] =
      "a\nb\nc\nd" ∧
    (∀ pages : List Page, (∀ p ∈ pages, p = Page.bad ∨ p = Page.content "") →
      extract_text_from_pdf pages = "No readable text found in PDF") := by
  refine ⟨batchIndices_eq_range, ?_, by decide, ?_⟩
  · intro xs ys
    rw [extract_text_from_pdf_eq_foldl, extract_text_from_pdf_eq_foldl,
      pdf_fold_skip]
  · intro pages h
    rw [extract_text_from_pdf_eq_foldl, pdf_fold_noText pages "" h]
    rfl

/-- Witness for C7: a one-page document whose only page raises yields the
sentinel. -/
theorem claim_C7_witness :
    extract_text_from_pdf [Page.bad] = "No readable text found in PDF" :=
  claim_C7_pdf_extraction.2.2.2 [Page.bad]
    (fun _p hp => Or.inl (List.mem_singleton.mp hp))

/-! ## C10: the summary fallback string -/

theorem processChunk_summaries_mono (g : Gateway) (t : ChunkTiming)
    (chunk : List Char) (st : List String × List QA) (x : String)
    (hx : x ∈ st.1) : x ∈ (processChunk g t chunk st).1 := by
  cases t with
  | timeoutDuringSummary => exact hx
  | timeoutDuringQuestions =>
    cases hs : generate_summary g chunk with
    | error e => simpa [processChunk, hs] using hx
    | ok s =>
      simp only [processChunk, hs]
      by_cases h : s = "" <;> simp [h, hx]
  | completes =>
    cases hs : generate_summary g chunk with
    | error e => simpa [processChunk, hs] using hx
    | ok s =>
      cases hq : generate_questions g chunk with
      | error e =>
        simp only [processChunk, hs, hq]
        by_cases h : s = "" <;> simp [h, hx]
      | ok qs =>
        simp only [processChunk, hs, hq]
        by_cases h : s = "" <;> simp [h, hx]

theorem processChunks_summaries_mono (g : Gateway) (tim : Nat → ChunkTiming)
    (chunks : List (List Char)) :
    ∀ (i : Nat) (st : List String × List QA) (x : String), x ∈ st.1 →
      x ∈ (processChunks g tim chunks i st).1 := by
  induction chunks with
  | nil => intro i st x hx; exact hx
  | cons c rest ih =>
    intro i st x hx
    exact ih (i + 1) _ x (processChunk_summaries_mono g (tim i) c st x hx)

/-- A chunk that is not interrupted during summary generation, and whose
summary query yields no content, appends exactly the fallback string to the
summaries list. -/
theorem processChunk_fallback (g : Gateway) (t : ChunkTiming)
    (chunk : List Char) (st : List String × List QA)
    (hg : g (summaryPrompt chunk) = .ok none)
    (ht : t ≠ .timeoutDuringSummary) :
    (processChunk g t chunk st).1 = st.1 ++ ["Failed to generate summary"] := by
  have hs : generate_summary g chunk = .ok "Failed to generate summary" := by
    simp [generate_summary, hg]
  have hne : ("Failed to generate summary" : String) ≠ "" := by decide
  cases t with
  | timeoutDuringSummary => exact absurd rfl ht
  | timeoutDuringQuestions => simp [processChunk, hs, hne]
  | completes =>
    cases hq : generate_questions g chunk with
    | error e => simp [processChunk, hs, hq, hne]
    | ok qs => simp [processChunk, hs, hq, hne]

theorem processChunks_fallback_mem (g : Gateway) (tim : Nat → ChunkTiming) :
    ∀ (chunks : List (List Char)) (j i : Nat) (st : List String × List QA),
      j < chunks.length →
      tim (i + j) ≠ .timeoutDuringSummary →
      g (summaryPrompt (chunks.getD j [])) = .ok none →
      "Failed to generate summary" ∈ (processChunks g tim chunks i st).1 := by
  intro chunks
  induction chunks with
  | nil => intro j i st hj _ _; simp at hj
  | cons c rest ih =>
    intro j i st hj ht hg
    cases j with
    | zero =>
      rw [Nat.add_zero] at ht
      simp only [List.getD_cons_zero] at hg
      simp only [processChunks]
      apply processChunks_summaries_mono g tim rest (i + 1) _ _
      rw [processChunk_fallback g (tim i) c st hg ht]
      exact List.mem_append_right _ (List.mem_singleton.mpr rfl)
    | succ j =>
      simp only [processChunks]
      refine ih j (i + 1) _ (by simpa using hj) ?_ (by simpa using hg)
      rw [show i + 1 + j = i + (j + 1) from by omega]
      exact ht

theorem mem_joinSpace_infix (x : String) : ∀ l : List String, x ∈ l →
    x.data <:+: (joinSpace l).data := by
  intro l
  induction l with
  | nil => intro hx; simp at hx
  | cons s rest ih =>
    intro hx
    cases rest with
    | nil =>
      rw [List.mem_singleton] at hx
      subst hx
      exact List.infix_rfl
    | cons b t =>
      rw [List.mem_cons] at hx
      rcases hx with rfl | hx
      · exact ⟨[], " ".data ++ (joinSpace (b :: t)).data,
          by simp [joinSpace, String.data_append]⟩
      · refine (ih hx).trans ?_
        exact ⟨(s ++ " ").data, [],
          by simp [joinSpace, String.data_append]⟩

theorem infix_dropWhile (a : Char) (x : List Char) (ha : isWs a = false) :
    ∀ l : List Char, (a :: x) <:+: l → (a :: x) <:+: l.dropWhile isWs := by
  intro l
  induction l with
  | nil => intro h; simp at h
  | cons c l2 ih =>
    intro h
    by_cases hc : isWs c
    · rw [List.dropWhile_cons_of_pos hc]
      apply ih
      rcases List.infix_cons_iff.mp h with hpre | hinf
      · obtain ⟨hac, -⟩ := List.cons_prefix_cons.mp hpre
        rw [hac, hc] at ha
        cases ha
      · exact hinf
    · rw [List.dropWhile_cons_of_neg hc]
      exact h

/-- The fallback string survives both ends of the strip: it starts with a
non-whitespace `'F'` and ends with a non-whitespace `'y'`. -/
theorem fallback_infix_pyStrip (l : List Char)
    (h : "Failed to generate summary".data <:+: l) :
    "Failed to generate summary".data <:+: pyStrip l := by
  unfold pyStrip
  have h1 : "Failed to generate summary".data <:+: l.dropWhile isWs := by
    rw [show "Failed to generate summary".data =
        'F' :: "ailed to generate summary".data from rfl] at h ⊢
    exact infix_dropWhile 'F' _ (by decide) l h
  have h2 := List.reverse_infix.mpr h1
  have h3 : "Failed to generate summary".data.reverse <:+:
      (l.dropWhile isWs).reverse.dropWhile isWs := by
    rw [show "Failed to generate summary".data.reverse =
        'y' :: "Failed to generate summar".data.reverse from by decide] at h2 ⊢
    exact infix_dropWhile 'y' _ (by decide) _ h2
  have h4 := List.reverse_infix.mpr h3
  rwa [List.reverse_reverse] at h4

/-- C10: `generate_summary` never returns an empty result — a gateway call
that yields no content produces the fallback `"Failed to generate summary"`,
which passes the truthiness check and is appended to the summaries list; the
fallback of any completed chunk whose summary query had no content appears
inside the final summary of the success response. -/
theorem claim_C10_summary_fallback :
    (∀ (g : Gateway) (text : List Char), g (summaryPrompt text) = .ok none →
      generate_summary g text = .ok "Failed to generate summary") ∧
    (∀ (g : Gateway) (text : List Char) (s : String),
      generate_summary g text = .ok s → s ≠ "") ∧
    (∀ (g : Gateway) (t : ChunkTiming) (chunk : List Char)
      (st : List String × List QA), g (summaryPrompt chunk) = .ok none →
      t ≠ .timeoutDuringSummary →
      (processChunk g t chunk st).1 = st.1 ++ ["Failed to generate summary"]) ∧
    (∀ (g : Gateway) (tim : Nat → ChunkTiming) (text : List Char) (i : Nat),
      100 ≤ (pyStrip text).length →
      i < (pyChunks 5000 text).length →
      tim i ≠ .timeoutDuringSummary →
      g (summaryPrompt ((pyChunks 5000 text).getD i [])) = .ok none →
      ∃ s qs, process_document g tim (.ok text) = .ok s qs "success" ∧
        "Failed to generate summary".data <:+: s.data) := by
  refine ⟨?_, ?_, processChunk_fallback, ?_⟩
  · intro g text hg
    simp [generate_summary, hg]
  · intro g text s hs
    unfold generate_summary at hs
    cases hr : g (summaryPrompt text) with
    | exn => rw [hr] at hs; simp at hs
    | ok content =>
      rw [hr] at hs
      cases content with
      | none =>
        simp at hs
        rw [← hs]
        decide
      | some r =>
        by_cases h : r = ""
        · simp [h] at hs
          rw [← hs]
          decide
        · simp [h] at hs
          rw [← hs]
          exact h
  · intro g tim text i h100 hi ht hg
    have hmem : "Failed to generate summary" ∈
        (processChunks g tim (pyChunks 5000 text) 0 ([], [])).1 :=
      processChunks_fallback_mem g tim (pyChunks 5000 text) i 0 ([], []) hi
        (by simpa using ht) hg
    have hinf : "Failed to generate summary".data <:+:
        (joinSpace (processChunks g tim (pyChunks 5000 text) 0 ([], [])).1).data :=
      mem_joinSpace_infix _ _ hmem
    have hstr : "Failed to generate summary".data <:+:
        (pyStripS (joinSpace
          (processChunks g tim (pyChunks 5000 text) 0 ([], [])).1)).data :=
      fallback_infix_pyStrip _ hinf
    have hne : pyStripS (joinSpace
        (processChunks g tim (pyChunks 5000 text) 0 ([], [])).1) ≠ "" := by
      intro h0
      rw [h0] at hstr
      rw [show ("" : String).data = [] from rfl] at hstr
      simp only [List.infix_nil] at hstr
      exact absurd hstr (by decide)
    refine ⟨pyStripS (joinSpace
        (processChunks g tim (pyChunks 5000 text) 0 ([], [])).1),
      (if (processChunks g tim (pyChunks 5000 text) 0 ([], [])).2 = []
       then [JsonQ.str "No questions generated"]
       else (processChunks g tim (pyChunks 5000 text) 0 ([], [])).2.map
        fun q => JsonQ.pair q.question q.answer), ?_, hstr⟩
    rw [process_document_ok_of_ge g tim text h100, if_neg hne]

/-- Witness for C10: a gateway with no usable content makes
`generate_summary` return the fallback string. -/
theorem claim_C10_witness :
    generate_summary gwNone ("x".data) = .ok "Failed to generate summary" :=
  claim_C10_summary_fallback.1 gwNone ("x".data) rfl

end Backend
